import Mathlib

set_option autoImplicit false

/-!
Verification of the exonum python client (`exonum/client.py`) against its
natural-language specification.

The file shallowly embeds the client: HTTP transports are modelled as
functions from requests to responses (the `requests` library boundary),
Python dictionaries as association lists whose lookup raises `KeyError`
when the key is absent, and the websocket subscriber as explicit state
plus a list of observable effects.  Components of the repository that are
imported by `client.py` but whose source files are not part of the
snapshot (`exonum/protobuf_loader.py`, `exonum/message.py`,
`exonum/errors.py`) are modelled from the specification; each such
definition says so in its doc comment.
-/

namespace Exonum

/-- Python-level exceptions that the embedded code can raise: a dictionary
lookup failure (`KeyError`) or `RuntimeError` with a message. -/
inductive PyError where
  | keyError
  | runtimeError (msg : String)
  deriving DecidableEq

/-- One proto file as returned by the node, `ProtoFile(name=..., content=...)`
(the `ProtoFile` value object; the spec calls it SchemaFile). -/
structure ProtoFile where
  name : String
  content : String
  deriving DecidableEq

/-- A query-parameter value: `params` dictionaries in `client.py` are typed
`Dict[str, Union[int, str]]`. -/
inductive ParamValue where
  | int (i : Int)
  | str (s : String)
  deriving DecidableEq

/-- A GET request as handed to `requests.get(url, params=params)`. -/
structure HttpRequest where
  url : String
  params : Option (List (String × ParamValue))
  deriving DecidableEq

/-- An HTTP response (`requests.Response`) as observed by `client.py`:
status code, headers, raw body (`response.content`), and the decoded JSON
body (`response.json()`), which for the proto-sources endpoint is a list of
objects modelled as association lists. -/
structure Response where
  statusCode : Nat
  headers : List (String × String)
  content : String
  jsonBody : List (List (String × String))
  deriving DecidableEq

/-- A POST request as handed to `requests.post(url, data=data, headers=headers)`. -/
structure PostRequest where
  url : String
  data : String
  headers : List (String × String)
  deriving DecidableEq

/-- The GET side of the `requests` boundary: what response the network
returns for each request. -/
def GetTransport : Type := HttpRequest → Response

/-- The POST side of the `requests` boundary. -/
def PostTransport : Type := PostRequest → Response

/-- Embedding of the module-level helper `_get(url, params)`: a plain call
into the transport. -/
def _get (transport : GetTransport) (url : String)
    (params : Option (List (String × ParamValue))) : Response :=
  transport { url := url, params := params }

/-- Embedding of the module-level helper `_post(url, data, headers)`. -/
def _post (transport : PostTransport) (url : String) (data : String)
    (headers : List (String × String)) : Response :=
  transport { url := url, data := data, headers := headers }

/-- Embedding of the `_ENDPOINT_PREFIX` format string `"{}://{}:{}"`. -/
def endpointPrefix (schema hostname : String) (port : Nat) : String :=
  schema ++ "://" ++ hostname ++ ":" ++ toString port

/-- The fields `ExonumClient.__init__` stores on the object. -/
structure ExonumClient where
  schema : String
  hostname : String
  publicApiPort : Nat
  privateApiPort : Nat
  txUrl : String
  deriving DecidableEq

/-- Embedding of `ExonumClient.__init__`: `schema` is `"https"` when `ssl`
else `"http"`, and `tx_url` is `_TX_URL` formatted with the schema, the
hostname and the public port. -/
def mkExonumClient (hostname : String) (publicApiPort privateApiPort : Nat)
    (ssl : Bool) : ExonumClient :=
  let schema := if ssl then "https" else "http"
  { schema := schema
    hostname := hostname
    publicApiPort := publicApiPort
    privateApiPort := privateApiPort
    txUrl := endpointPrefix schema hostname publicApiPort ++ "/api/explorer/v1/transactions" }

/-- Embedding of `ExonumClient._system_endpoint`: `_SYSTEM_URL` formatted
with the schema, hostname, public port and the endpoint name. -/
def systemEndpoint (c : ExonumClient) (endpoint : String) : String :=
  endpointPrefix c.schema c.hostname c.publicApiPort ++ "/api/system/v1/" ++ endpoint

/-- The `_BLOCKS_URL` for a client, as computed in `get_blocks`. -/
def blocksUrl (c : ExonumClient) : String :=
  endpointPrefix c.schema c.hostname c.publicApiPort ++ "/api/explorer/v1/blocks"

/-- Embedding of a Python dictionary access `d[k]` on a string dictionary:
returns the mapped value or raises `KeyError` when the key is absent. -/
def dictGet (d : List (String × String)) (k : String) : Except PyError String :=
  match List.lookup k d with
  | some v => Except.ok v
  | none => Except.error PyError.keyError

/-- Helper for the embedding of Python's substring operator: does `pat`
stand at the front of `s`? -/
def charsLead : List Char → List Char → Bool
  | [], _ => true
  | _ :: _, [] => false
  | a :: as, b :: bs => a == b && charsLead as bs

/-- Helper for the embedding of Python's substring operator: does `pat`
occur contiguously anywhere in `s`? -/
def charsHasSub (pat : List Char) : List Char → Bool
  | [] => charsLead pat []
  | b :: bs => charsLead pat (b :: bs) || charsHasSub pat bs

/-- Embedding of Python's `pat in s` on strings: substring containment. -/
def strContains (s pat : String) : Bool :=
  charsHasSub pat.toList s.toList

/-- The `RuntimeError` message `_get_proto_sources` raises:
`"Unsuccessfully attempted to retrieve protobuf sources: {}".format(response.content)`. -/
def protoFetchErrorMsg (r : Response) : String :=
  "Unsuccessfully attempted to retrieve protobuf sources: " ++ r.content

/-- Embedding of the list comprehension in `_get_proto_sources`:
`[ProtoFile(name=p["name"], content=p["content"]) for p in response.json()]`,
evaluated left to right with `name` read before `content`; a missing key
raises `KeyError`. -/
def buildProtoFiles : List (List (String × String)) → Except PyError (List ProtoFile)
  | [] => Except.ok []
  | o :: rest =>
    match dictGet o "name" with
    | Except.error e => Except.error e
    | Except.ok n =>
      match dictGet o "content" with
      | Except.error e => Except.error e
      | Except.ok c =>
        match buildProtoFiles rest with
        | Except.error e => Except.error e
        | Except.ok files => Except.ok ({ name := n, content := c } :: files)

/-- Embedding of the body of `ExonumClient._get_proto_sources` applied to
the fetched response.  Python short-circuits the `or`: when the status is
not 200 the header is never read; when it is 200,
`response.headers["content-type"]` is read unguarded (a missing header
raises `KeyError`), and a content type without `"application/json"` raises
the `RuntimeError` carrying the raw body. -/
def processProtoResponse (r : Response) : Except PyError (List ProtoFile) :=
  if r.statusCode ≠ 200 then
    Except.error (PyError.runtimeError (protoFetchErrorMsg r))
  else
    match List.lookup "content-type" r.headers with
    | none => Except.error PyError.keyError
    | some ct =>
      if strContains ct "application/json" then
        buildProtoFiles r.jsonBody
      else
        Except.error (PyError.runtimeError (protoFetchErrorMsg r))

/-- Embedding of `ExonumClient._get_proto_sources(params)`: a GET on the
`proto-sources` system endpoint followed by the response processing. -/
def _get_proto_sources (transport : GetTransport) (c : ExonumClient)
    (params : Option (List (String × ParamValue))) : Except PyError (List ProtoFile) :=
  processProtoResponse (_get transport (systemEndpoint c "proto-sources") params)

/-- Embedding of `ExonumClient.get_main_proto_sources`: the same fetch with
no params. -/
def get_main_proto_sources (transport : GetTransport) (c : ExonumClient) :
    Except PyError (List ProtoFile) :=
  _get_proto_sources transport c none

/-- Embedding of `ExonumClient.get_proto_sources_for_artifact`: the fetch
with params `{"artifact": "{}:{}".format(runtime_id, artifact_name)}`. -/
def get_proto_sources_for_artifact (transport : GetTransport) (c : ExonumClient)
    (runtimeId : Int) (artifactName : String) : Except PyError (List ProtoFile) :=
  _get_proto_sources transport c
    (some [("artifact", ParamValue.str (toString runtimeId ++ ":" ++ artifactName))])

/-- Modelled from the spec: `ExonumMessage` lives in `exonum/message.py`,
which is not part of the source snapshot.  The spec describes the
submission contract as "a single function taking a transport-form string",
so a message is modelled by the transport-form string its
`pack_into_json()` returns. -/
structure ExonumMessage where
  packIntoJson : String
  deriving DecidableEq

/-- Embedding of `ExonumClient.send_transaction`: a POST of the packed
message to `tx_url` with the `content-type: application/json` header,
whose response is returned unchanged. -/
def send_transaction (transport : PostTransport) (c : ExonumClient)
    (message : ExonumMessage) : Response :=
  _post transport c.txUrl message.packIntoJson [("content-type", "application/json")]

/-- Embedding of the query-parameter dictionary built by
`ExonumClient.get_blocks`: `count` always, `latest` only when the Python
value is truthy (not `None` and not `0`), and the two flags as the string
`"true"` only when set.  Insertion order matches the source. -/
def blocksParams (count : Int) (latest : Option Int)
    (skipEmptyBlocks addBlocksTime : Bool) : List (String × ParamValue) :=
  let params := [("count", ParamValue.int count)]
  let params :=
    match latest with
    | some n => if n ≠ 0 then params ++ [("latest", ParamValue.int n)] else params
    | none => params
  let params :=
    if skipEmptyBlocks then params ++ [("skip_empty_blocks", ParamValue.str "true")] else params
  if addBlocksTime then params ++ [("add_blocks_time", ParamValue.str "true")] else params

/-- Embedding of `ExonumClient.get_blocks`: a GET on the blocks endpoint
with the parameter dictionary above. -/
def get_blocks (transport : GetTransport) (c : ExonumClient) (count : Int)
    (latest : Option Int) (skipEmptyBlocks addBlocksTime : Bool) : Response :=
  _get transport (blocksUrl c) (some (blocksParams count latest skipEmptyBlocks addBlocksTime))

/-- Observable effects of the `Subscriber` methods: a `print`, an
invocation of the registered handler, a raw `ws.recv()` whose value is
returned to the caller, a websocket close, and a thread join. -/
inductive SubEffect where
  | printed (s : String)
  | handlerCalled (frame : String)
  | rawReceived (frame : String)
  | wsClosed
  | threadJoined
  deriving DecidableEq

/-- The mutable state of a `Subscriber`: `_connected`, `_is_running`, and
whether the background thread is alive (`_thread.isAlive()`). -/
structure SubscriberState where
  connected : Bool
  isRunning : Bool
  threadAlive : Bool
  deriving DecidableEq

/-- Embedding of the body of `Subscriber._event_processing` over the
finite list of frames `recv` returns while `_is_running` holds.  The guard
`if data and self._handler` calls the handler only when the frame is
truthy (non-empty) and a handler is registered. -/
def _event_processing (hasHandler : Bool) : List String → List SubEffect
  | [] => []
  | f :: rest =>
    (if (f != "") && hasHandler then [SubEffect.handlerCalled f] else [])
      ++ _event_processing hasHandler rest

/-- Embedding of `Subscriber.wait_for_new_block`.  The websocket is
modelled as an infinite stream of incoming frames (`recv` blocks until one
arrives).  When `_is_running` it only prints the warning and leaves the
stream untouched; otherwise it performs one raw `recv`, discarding the
frame.  The registered handler is never invoked and no exception is
raised, so the result is always `Except.ok` of the effects and the
remaining stream. -/
def wait_for_new_block (isRunning : Bool) (ws : Nat → String) :
    Except PyError (List SubEffect × (Nat → String)) :=
  if isRunning then
    Except.ok ([SubEffect.printed "Subscriber is already running..."], ws)
  else
    Except.ok ([SubEffect.rawReceived (ws 0)], fun n => ws (n + 1))

/-- Embedding of `Subscriber.stop`: close the websocket when connected and
clear `_connected`; then, when `_is_running`, join the thread if it is
alive and clear `_is_running`. -/
def stop (s : SubscriberState) : SubscriberState × List SubEffect :=
  let p1 :=
    if s.connected then ({ s with connected := false }, [SubEffect.wsClosed])
    else (s, ([] : List SubEffect))
  let s1 := p1.1
  let p2 :=
    if s1.isRunning then
      if s1.threadAlive then
        ({ s1 with isRunning := false, threadAlive := false }, [SubEffect.threadJoined])
      else ({ s1 with isRunning := false }, ([] : List SubEffect))
    else (s1, ([] : List SubEffect))
  (p2.1, p1.2 ++ p2.2)

/-- The single-instance error of the loader, named
`ProtobufLoaderEntityExists` in `exonum/errors.py` (the spec calls it
`RegistryAlreadyActiveError`). -/
inductive LoaderError where
  | protobufLoaderEntityExists
  deriving DecidableEq

/-- The process-wide flag backing the single-loader invariant. -/
structure LoaderProcessState where
  activeLoader : Bool
  deriving DecidableEq

/-- Modelled from the spec: `ProtobufLoader` creation
(`exonum/protobuf_loader.py` is not part of the source snapshot; only its
callers and tests are).  Spec section 4.1: `open()` fails with the
single-instance error if another registry handle is currently live in the
process, enforced through an atomically checked process-scoped flag;
otherwise the new loader becomes the live one. -/
def protobuf_loader (st : LoaderProcessState) : Except LoaderError LoaderProcessState :=
  if st.activeLoader then Except.error LoaderError.protobufLoaderEntityExists
  else Except.ok { activeLoader := true }

/-- Modelled from the spec: `close()` tears the loader down and releases
the single-instance lock, clearing the process-scoped flag. -/
def loaderClose (_st : LoaderProcessState) : LoaderProcessState :=
  { activeLoader := false }

/-- An Ed25519 key pair, bytes as naturals: 32-byte public key, 64-byte
secret key. -/
structure KeyPair where
  publicKey : List Nat
  secretKey : List Nat
  deriving DecidableEq

/-- The canonical on-wire transaction envelope of the spec's data model. -/
structure SignedTransaction where
  authorPublicKey : List Nat
  serviceId : Nat
  messageId : Nat
  payload : List Nat
  signatureBytes : List Nat
  deriving DecidableEq

/-- Modelled from the spec: the canonical envelope encoding over
`{public_key, service_id, message_id, payload}` that the signature is
computed over (`exonum/message.py` is not part of the source snapshot). -/
def encodeEnvelope (publicKey : List Nat) (serviceId messageId : Nat)
    (payload : List Nat) : List Nat :=
  publicKey ++ [serviceId % 256, serviceId / 256 % 256, messageId % 256, messageId / 256 % 256]
    ++ payload

/-- Modelled from the spec: Ed25519 signing, a pure function of the secret
key and the message per RFC 8032 ("no randomness dependency").  A concrete
deterministic byte function stands in for the curve arithmetic, which the
determinism claim does not depend on. -/
def ed25519Sign (secretKey message : List Nat) : List Nat :=
  let seed := (secretKey ++ message).foldl (fun acc b => (acc * 131 + b) % 18446744073709551616) 0
  (List.range 64).map (fun i => (seed + 31 * i) % 256)

/-- The ambient state an invocation could observe: a stream of randomness.
Passing it to `sign` makes the no-randomness-dependency property
expressible: the result does not depend on this argument. -/
structure InvocationContext where
  rng : Nat → Nat

/-- Modelled from the spec: `sign(service_id, message_id, payload, keys)`
(`exonum/message.py` is not part of the source snapshot) computes the
canonical envelope encoding, signs it with Ed25519 using the secret key,
and returns the signed transaction.  The invocation context is ignored:
signing reads no randomness. -/
def sign (_ctx : InvocationContext) (serviceId messageId : Nat)
    (payload : List Nat) (keys : KeyPair) : SignedTransaction :=
  { authorPublicKey := keys.publicKey
    serviceId := serviceId
    messageId := messageId
    payload := payload
    signatureBytes :=
      ed25519Sign keys.secretKey (encodeEnvelope keys.publicKey serviceId messageId payload) }

end Exonum

namespace Exonum

theorem charsLead_self (l : List Char) : charsLead l l = true := by
  induction l with
  | nil => rfl
  | cons a as ih => simp [charsLead, ih]

theorem charsHasSub_of_tail (pat : List Char) (x : Char) (ys : List Char)
    (h : charsHasSub pat ys = true) : charsHasSub pat (x :: ys) = true := by
  simp [charsHasSub, h]

theorem charsHasSub_self (pat : List Char) : charsHasSub pat pat = true := by
  cases pat with
  | nil => rfl
  | cons a as => simp [charsHasSub, charsLead_self]

theorem charsHasSub_append (pat xs : List Char) : charsHasSub pat (xs ++ pat) = true := by
  induction xs with
  | nil => simpa using charsHasSub_self pat
  | cons x xs ih => simpa [charsHasSub] using Or.inr ih

theorem strContains_append_right (pre s : String) : strContains (pre ++ s) s = true := by
  show charsHasSub s.toList (pre ++ s).toList = true
  have h : (pre ++ s).toList = pre.toList ++ s.toList := String.data_append pre s
  rw [h]
  exact charsHasSub_append s.toList pre.toList

theorem buildProtoFiles_of_fields (objs : List (List (String × String)))
    (h : ∀ o ∈ objs, (List.lookup "name" o).isSome ∧ (List.lookup "content" o).isSome) :
    buildProtoFiles objs = Except.ok (objs.map (fun o =>
      { name := (List.lookup "name" o).getD "",
        content := (List.lookup "content" o).getD "" })) := by
  induction objs with
  | nil => rfl
  | cons o rest ih =>
    obtain ⟨hn, hc⟩ := h o (List.mem_cons_self o rest)
    obtain ⟨n, hn2⟩ := Option.isSome_iff_exists.mp hn
    obtain ⟨cv, hc2⟩ := Option.isSome_iff_exists.mp hc
    have hrest := ih (fun o ho => h o (List.mem_cons_of_mem _ ho))
    simp [buildProtoFiles, dictGet, hn2, hc2, hrest]

end Exonum

namespace Exonum

/-- Claim C1: at most one protobuf loader is live per process. Creating a
loader while one is active fails with the single-instance error
(`ProtobufLoaderEntityExists`, the spec's `RegistryAlreadyActiveError`);
creating one while none is active succeeds; and after the active loader is
closed, creating a new one succeeds again. -/
theorem C1_single_loader_lifecycle (st : LoaderProcessState) :
    (st.activeLoader = true →
      protobuf_loader st = Except.error LoaderError.protobufLoaderEntityExists)
    ∧ (st.activeLoader = false →
      protobuf_loader st = Except.ok { activeLoader := true })
    ∧ protobuf_loader (loaderClose st) = Except.ok { activeLoader := true } := by
  refine ⟨fun h => ?_, fun h => ?_, ?_⟩
  · simp [protobuf_loader, h]
  · simp [protobuf_loader, h]
  · rfl

/-- Witness for C1 at the two concrete process states. -/
theorem C1_single_loader_lifecycle_witness :
    protobuf_loader { activeLoader := true }
      = Except.error LoaderError.protobufLoaderEntityExists
    ∧ protobuf_loader { activeLoader := false } = Except.ok { activeLoader := true } :=
  ⟨(C1_single_loader_lifecycle { activeLoader := true }).1 rfl,
   (C1_single_loader_lifecycle { activeLoader := false }).2.1 rfl⟩

/-- Claim C2: a proto-sources fetch whose response status is not 200, or
whose content type is present but not the JSON content type, fails with
the schema-fetch `RuntimeError` whose message carries the raw response
body (the message literally contains the body as a substring); a 200
response with a JSON content type yields one `ProtoFile` per element of
the JSON body, built from that element's `name` and `content` fields; and
`get_main_proto_sources` and `get_proto_sources_for_artifact` both go
through `_get_proto_sources`. -/
theorem C2_proto_sources_fetch (transport : GetTransport) (c : ExonumClient)
    (params : Option (List (String × ParamValue))) (r : Response)
    (hr : transport { url := systemEndpoint c "proto-sources", params := params } = r) :
    (r.statusCode ≠ 200 →
      _get_proto_sources transport c params
        = Except.error (PyError.runtimeError (protoFetchErrorMsg r)))
    ∧ (∀ ct, r.statusCode = 200 →
        List.lookup "content-type" r.headers = some ct →
        strContains ct "application/json" = false →
        _get_proto_sources transport c params
          = Except.error (PyError.runtimeError (protoFetchErrorMsg r)))
    ∧ (∀ ct, r.statusCode = 200 →
        List.lookup "content-type" r.headers = some ct →
        strContains ct "application/json" = true →
        (∀ o ∈ r.jsonBody, (List.lookup "name" o).isSome ∧ (List.lookup "content" o).isSome) →
        _get_proto_sources transport c params
          = Except.ok (r.jsonBody.map (fun o =>
              { name := (List.lookup "name" o).getD "",
                content := (List.lookup "content" o).getD "" })))
    ∧ strContains (protoFetchErrorMsg r) r.content = true
    ∧ get_main_proto_sources transport c = _get_proto_sources transport c none
    ∧ (∀ runtimeId artifactName,
        get_proto_sources_for_artifact transport c runtimeId artifactName
          = _get_proto_sources transport c
              (some [("artifact",
                ParamValue.str (toString runtimeId ++ ":" ++ artifactName))])) := by
  subst hr
  refine ⟨fun h => ?_, fun ct h200 hct hfalse => ?_, fun ct h200 hct htrue hall => ?_,
    strContains_append_right _ _, rfl, fun _ _ => rfl⟩
  · simp [_get_proto_sources, _get, processProtoResponse, h]
  · simp [_get_proto_sources, _get, processProtoResponse, h200, hct, hfalse]
  · rw [_get_proto_sources, _get]
    rw [show processProtoResponse
        (transport { url := systemEndpoint c "proto-sources", params := params })
        = buildProtoFiles
            (transport { url := systemEndpoint c "proto-sources", params := params }).jsonBody
      by simp [processProtoResponse, h200, hct, htrue]]
    exact buildProtoFiles_of_fields _ hall

end Exonum

namespace Exonum

/-- A concrete client for the C2 witness. -/
def c2Client : ExonumClient := mkExonumClient "127.0.0.1" 8080 8081 false

/-- A concrete non-200 response for the C2 witness. -/
def c2BadStatusResponse : Response :=
  { statusCode := 500, headers := [], content := "node down", jsonBody := [] }

/-- A concrete 200 response with a non-JSON content type for the C2 witness. -/
def c2BadTypeResponse : Response :=
  { statusCode := 200, headers := [("content-type", "text/html")],
    content := "oops", jsonBody := [] }

/-- A concrete good 200 JSON response for the C2 witness. -/
def c2OkResponse : Response :=
  { statusCode := 200, headers := [("content-type", "application/json")],
    content := "raw-body",
    jsonBody := [[("name", "runtime.proto"), ("content", "runtime-src")]] }

/-- A transport answering every request with the non-200 response. -/
def c2BadStatusTransport : GetTransport := fun _ => c2BadStatusResponse

/-- A transport answering every request with the non-JSON response. -/
def c2BadTypeTransport : GetTransport := fun _ => c2BadTypeResponse

/-- A transport answering every request with the good JSON response. -/
def c2OkTransport : GetTransport := fun _ => c2OkResponse

/-- Witness for C2 at the three concrete transports. -/
theorem C2_proto_sources_fetch_witness :
    _get_proto_sources c2BadStatusTransport c2Client none
      = Except.error (PyError.runtimeError (protoFetchErrorMsg c2BadStatusResponse))
    ∧ _get_proto_sources c2BadTypeTransport c2Client none
      = Except.error (PyError.runtimeError (protoFetchErrorMsg c2BadTypeResponse))
    ∧ _get_proto_sources c2OkTransport c2Client none
      = Except.ok [{ name := "runtime.proto", content := "runtime-src" }] :=
  ⟨(C2_proto_sources_fetch c2BadStatusTransport c2Client none c2BadStatusResponse rfl).1
      (by decide),
   (C2_proto_sources_fetch c2BadTypeTransport c2Client none c2BadTypeResponse rfl).2.1
      "text/html" rfl rfl (by decide),
   (C2_proto_sources_fetch c2OkTransport c2Client none c2OkResponse rfl).2.2.1
      "application/json" rfl rfl (by decide) (by decide)⟩

/-- Claim C3: `sign` is deterministic. Two invocations with identical
`(service_id, message_id, payload, keys)` but arbitrary, possibly
different, ambient randomness produce the same signed transaction, and in
particular byte-identical signatures. -/
theorem C3_sign_deterministic (ctx1 ctx2 : InvocationContext)
    (serviceId messageId : Nat) (payload : List Nat) (keys : KeyPair) :
    sign ctx1 serviceId messageId payload keys = sign ctx2 serviceId messageId payload keys
    ∧ (sign ctx1 serviceId messageId payload keys).signatureBytes
        = (sign ctx2 serviceId messageId payload keys).signatureBytes :=
  ⟨rfl, rfl⟩

/-- Claim C4: `send_transaction` POSTs the message's packed transport-form
string to the transactions endpoint with the content-type header set
exactly to `application/json`, and returns the transport response
unchanged; the transactions endpoint URL is the one `__init__` builds. -/
theorem C4_send_transaction_request (transport : PostTransport) (c : ExonumClient)
    (message : ExonumMessage) :
    send_transaction transport c message
      = transport { url := c.txUrl, data := message.packIntoJson,
                    headers := [("content-type", "application/json")] }
    ∧ ∀ hostname publicApiPort privateApiPort ssl,
        (mkExonumClient hostname publicApiPort privateApiPort ssl).txUrl
          = (if ssl then "https" else "http") ++ "://" ++ hostname ++ ":"
              ++ toString publicApiPort ++ "/api/explorer/v1/transactions" :=
  ⟨rfl, fun _ _ _ _ => rfl⟩

/-- Claim C5: `get_main_proto_sources` fetches the proto-sources endpoint
with no artifact parameter, and `get_proto_sources_for_artifact` fetches
the same endpoint with the single query parameter `artifact` whose value
is the string `runtime_id`, a colon, and `artifact_name` concatenated;
both return the processed list of fetched proto files. -/
theorem C5_proto_sources_requests (transport : GetTransport) (c : ExonumClient)
    (runtimeId : Int) (artifactName : String) :
    get_main_proto_sources transport c
      = processProtoResponse
          (transport { url := systemEndpoint c "proto-sources", params := none })
    ∧ get_proto_sources_for_artifact transport c runtimeId artifactName
      = processProtoResponse
          (transport { url := systemEndpoint c "proto-sources",
                       params := some [("artifact",
                         ParamValue.str (toString runtimeId ++ ":" ++ artifactName))] }) :=
  ⟨rfl, rfl⟩

end Exonum

namespace Exonum

/-- Counterexample to claim C6 as stated: with a handler registered, an
empty frame received from the transport is not delivered to the callback,
so not every received frame is delivered. -/
theorem C6_every_frame_delivered_counterexample :
    _event_processing true [""] = []
    ∧ _event_processing true [""] ≠ List.map SubEffect.handlerCalled [""] := by
  constructor
  · rfl
  · decide

/-- Claim C6 (amended): while the background loop runs with a registered
callback, exactly the non-empty (truthy) frames are delivered to the
callback, in the order the transport produced them; empty frames are
skipped by the `if data and self._handler` guard. -/
theorem C6_nonempty_frames_delivered_in_order (frames : List String) :
    _event_processing true frames
      = List.map SubEffect.handlerCalled (List.filter (fun f => f != "") frames) := by
  induction frames with
  | nil => rfl
  | cons f rest ih =>
    by_cases h : f = ""
    · subst h
      simpa [_event_processing] using ih
    · simp [_event_processing, List.filter_cons, h, ih]

/-- Claim C7: `wait_for_new_block` called while the background loop runs
prints the warning and returns with the websocket stream untouched; called
while the loop is not running it performs one raw receive, bypassing the
registered handler (no handler effect is ever produced); and in neither
case does it raise. -/
theorem C7_wait_for_new_block_modes (ws : Nat → String) :
    wait_for_new_block true ws
      = Except.ok ([SubEffect.printed "Subscriber is already running..."], ws)
    ∧ wait_for_new_block false ws
      = Except.ok ([SubEffect.rawReceived (ws 0)], fun n => ws (n + 1))
    ∧ ∀ isRunning e, wait_for_new_block isRunning ws ≠ Except.error e := by
  refine ⟨rfl, rfl, fun isRunning e h => ?_⟩
  cases isRunning <;> simp [wait_for_new_block] at h

/-- Claim C8: `get_blocks` with `latest` equal to `None` or `0` sends the
request without a `latest` query parameter (a caller-supplied `0` is
treated as unset by Python truthiness); `count` is always present; and the
two flags appear, as the string `"true"`, exactly when they are set. -/
theorem C8_get_blocks_latest_zero_unset (transport : GetTransport) (c : ExonumClient)
    (count : Int) (skipEmptyBlocks addBlocksTime : Bool) :
    get_blocks transport c count none skipEmptyBlocks addBlocksTime
      = transport { url := blocksUrl c,
                    params := some (blocksParams count none skipEmptyBlocks addBlocksTime) }
    ∧ get_blocks transport c count (some 0) skipEmptyBlocks addBlocksTime
      = transport { url := blocksUrl c,
                    params := some (blocksParams count (some 0) skipEmptyBlocks addBlocksTime) }
    ∧ blocksParams count (some 0) skipEmptyBlocks addBlocksTime
        = blocksParams count none skipEmptyBlocks addBlocksTime
    ∧ List.lookup "latest" (blocksParams count none skipEmptyBlocks addBlocksTime) = none
    ∧ List.lookup "count" (blocksParams count none skipEmptyBlocks addBlocksTime)
        = some (ParamValue.int count)
    ∧ List.lookup "skip_empty_blocks" (blocksParams count none skipEmptyBlocks addBlocksTime)
        = (if skipEmptyBlocks then some (ParamValue.str "true") else none)
    ∧ List.lookup "add_blocks_time" (blocksParams count none skipEmptyBlocks addBlocksTime)
        = (if addBlocksTime then some (ParamValue.str "true") else none) := by
  refine ⟨rfl, rfl, ?_, ?_, ?_, ?_, ?_⟩ <;>
    cases skipEmptyBlocks <;> cases addBlocksTime <;> rfl

/-- Claim C10: `Subscriber.stop` is idempotent. After one call the state
has `_connected = False` and `_is_running = False`, and a second call
performs no websocket close and no thread join and leaves the state
unchanged. -/
theorem C10_stop_idempotent (s : SubscriberState) :
    (stop s).1.connected = false
    ∧ (stop s).1.isRunning = false
    ∧ stop (stop s).1 = ((stop s).1, ([] : List SubEffect)) := by
  rcases s with ⟨c, r, t⟩
  cases c <;> cases r <;> cases t <;> exact ⟨rfl, rfl, rfl⟩

end Exonum

namespace Exonum

/-- Claim C9: `_get_proto_sources` reads `response.headers["content-type"]`
unguarded, so a response with success status 200 but no content-type
header fails with `KeyError` instead of the schema-fetch `RuntimeError`;
the error branch carrying the response body is not reached. -/
theorem C9_missing_content_type_keyerror (transport : GetTransport) (c : ExonumClient)
    (params : Option (List (String × ParamValue)))
    (h200 : (transport { url := systemEndpoint c "proto-sources",
                         params := params }).statusCode = 200)
    (hhdr : List.lookup "content-type"
        (transport { url := systemEndpoint c "proto-sources", params := params }).headers
        = none) :
    _get_proto_sources transport c params = Except.error PyError.keyError
    ∧ ∀ msg, _get_proto_sources transport c params
        ≠ Except.error (PyError.runtimeError msg) := by
  have hmain : _get_proto_sources transport c params = Except.error PyError.keyError := by
    simp [_get_proto_sources, _get, processProtoResponse, h200, hhdr]
  refine ⟨hmain, fun msg h => ?_⟩
  rw [hmain] at h
  exact PyError.noConfusion (Except.error.inj h)

/-- A concrete client for the C9 witness. -/
def c9Client : ExonumClient := mkExonumClient "127.0.0.1" 8080 8081 false

/-- A transport answering with a 200 response that carries no
content-type header, for the C9 witness. -/
def c9Transport : GetTransport :=
  fun _ => { statusCode := 200, headers := [], content := "ok-but-headerless", jsonBody := [] }

/-- Witness for C9 at the concrete headerless transport. -/
theorem C9_missing_content_type_keyerror_witness :
    _get_proto_sources c9Transport c9Client none = Except.error PyError.keyError :=
  (C9_missing_content_type_keyerror c9Transport c9Client none rfl rfl).1

end Exonum
